import Mathlib

/-!
Shallow embedding of the domain value-type core of the nhl-api-go library:
decimal codecs (Go fmt %d and strconv.ParseInt/Atoi), the Season codec,
GameDate, the GameID codec, GameType and the other enumerated code types,
the GameSituation codec, and the team statistics aggregator, together with
theorems settling the specification claims about them.

Go machine integers (int, int64) are modelled as Lean Int; all values the
claims exercise are far from the 64-bit boundary except where the source
itself checks it (strconv.ParseInt), where the bound is modelled explicitly.
Go float64 fields (FaceoffWinningPctg, the percentage methods) are modelled
as exact rationals; float-to-int conversion truncates toward zero as in Go.
Go strings are modelled as Lean String (the sources only ever index ASCII
data, where Go bytes and Lean characters agree).
-/

namespace NHLSpec

/-! ### Decimal primitives: Go strconv and fmt %d -/

/-- The ASCII digit character for a digit value (0 ↦ '0', ..., 9 ↦ '9'). -/
def digitCh (d : Nat) : Char := Char.ofNat (48 + d)

/-- The digit value of an ASCII digit character ('0' ↦ 0, ..., '9' ↦ 9). -/
def digitVal (c : Char) : Nat := c.toNat - 48

/-- Whether a character is an ASCII decimal digit ('0'..'9'), the only
characters Go strconv's base-10 digit loop accepts. -/
def isDigitCh (c : Char) : Bool := 48 ≤ c.toNat && c.toNat ≤ 57

/-- One step of the base-10 accumulation loop of Go strconv.ParseUint. -/
def digitStep (a : Nat) (c : Char) : Nat := a * 10 + digitVal c

/-- The digit loop of Go strconv.ParseUint base 10: succeeds on a nonempty
all-digit sequence, producing its value. -/
def parseNatDigits (l : List Char) : Option Nat :=
  if l = [] then none
  else if l.all isDigitCh then some (l.foldl digitStep 0) else none

/-- Sign handling of Go strconv.ParseInt: an optional leading '+' or '-'
followed by the digit loop. -/
def goParseIntCore (l : List Char) : Option Int :=
  match l with
  | [] => none
  | c :: rest =>
    if c = '+' then (parseNatDigits rest).map (fun n : Nat => (n : Int))
    else if c = '-' then (parseNatDigits rest).map (fun n : Nat => -(n : Int))
    else (parseNatDigits (c :: rest)).map (fun n : Nat => (n : Int))

/-- Go strconv.ParseInt(s, 10, 64): sign, digit loop, and the int64 range
check (values outside [-2^63, 2^63-1] are an ErrRange error). -/
def ParseInt64 (s : String) : Option Int :=
  (goParseIntCore s.data).bind fun v =>
    if -9223372036854775808 ≤ v ∧ v ≤ 9223372036854775807 then some v else none

/-- Go strconv.Atoi, which on 64-bit platforms is ParseInt(s, 10, 64). -/
def Atoi (s : String) : Option Int := ParseInt64 s

/-- Fuel-driven most-significant-first decimal digit expansion
(the digits of Go fmt %d for a nonnegative value). -/
def natDigitsF : Nat → Nat → List Char
  | 0, _ => []
  | fuel + 1, n => if n < 10 then [digitCh n] else natDigitsF fuel (n / 10) ++ [digitCh (n % 10)]

/-- Decimal digit list of a natural number, most significant first. -/
def natDigits (n : Nat) : List Char := natDigitsF (n + 1) n

/-- Decimal representation of a natural number (Go fmt %d). -/
def natRepr (n : Nat) : String := String.mk (natDigits n)

/-- Decimal representation of an integer (Go fmt %d), with a leading '-'
for negative values. -/
def intRepr (i : Int) : String :=
  if i < 0 then "-" ++ natRepr i.natAbs else natRepr i.natAbs

/-- Go float-to-int conversion on an exact rational: truncation toward zero. -/
def goTruncToInt (q : ℚ) : Int := q.num.tdiv (q.den : Int)

/-! ### Season codec (season.go) -/

/-- Season: an NHL season, stored as its start year (Go struct Season). -/
structure Season where
  startYear : Int
deriving DecidableEq

/-- NewSeason: builds a Season from a start year, with no range checking. -/
def NewSeason (startYear : Int) : Season := ⟨startYear⟩

/-- Season.EndYear: the end year, always startYear + 1. -/
def Season.EndYear (s : Season) : Int := s.startYear + 1

/-- Season.ToAPIString: fmt.Sprintf of the start year directly followed by
the end year (the 8-digit wire form for ordinary seasons). -/
def Season.ToAPIString (s : Season) : String :=
  intRepr s.startYear ++ intRepr s.EndYear

/-- FromYears: fails unless the end year is exactly startYear + 1. -/
def FromYears (startYear endYear : Int) : Option Season :=
  if endYear = startYear + 1 then some (NewSeason startYear) else none

/-- SeasonParse (package-level Parse in season.go): accepts "YYYY-YYYY"
(split on '-') or an 8-character concatenated form, re-deriving the season
via FromYears in both cases. -/
def SeasonParse (str : String) : Option Season :=
  let l := str.data
  if l.contains '-' then
    match l.splitOn '-' with
    | [p1, p2] =>
      match Atoi (String.mk p1), Atoi (String.mk p2) with
      | some sy, some ey => FromYears sy ey
      | _, _ => none
    | _ => none
  else if l.length = 8 then
    match Atoi (String.mk (l.take 4)), Atoi (String.mk (l.drop 4)) with
    | some sy, some ey => FromYears sy ey
    | _, _ => none
  else none

/-- SeasonFromInt: valid only for 8-digit magnitudes; splits the integer
into 4+4 digit halves and delegates to FromYears. The guard makes the
value positive, so Go integer division and Nat division agree. -/
def SeasonFromInt (i : Int) : Option Season :=
  if i < 10000000 ∨ 99999999 < i then none
  else
    let n := i.toNat
    FromYears ((n / 10000 : Nat) : Int) ((n % 10000 : Nat) : Int)

/-- Season.ToInt: strconv.Atoi of the API string, discarding the error
(Go returns the int zero value when Atoi fails). -/
def Season.ToInt (s : Season) : Int := (Atoi s.ToAPIString).getD 0

/-! ### GameDate (game_date.go)

Go time.Time is modelled as seconds since the Unix epoch in UTC; with zero
month and year offsets, time.AddDate adds exactly whole days in UTC. The
wall clock read by time.Now inside Date is passed explicitly as a
parameter, since Lean functions cannot read real time. -/

/-- A UTC instant, as in Go time.Time (seconds since the Unix epoch). -/
structure GoTime where
  sec : Int
deriving DecidableEq

/-- time.Time.AddDate(0, 0, days) in UTC: adds whole days. -/
def GoTime.addDays (t : GoTime) (days : Int) : GoTime := ⟨t.sec + days * 86400⟩

/-- GameDate: either the symbolic current moment or a concrete instant
(Go struct GameDate with fields isNow and date). -/
structure GameDate where
  isNow : Bool
  date : GoTime
deriving DecidableEq

/-- Now: the symbolic current-moment GameDate (date is the Go zero value). -/
def GameDateNow : GameDate := ⟨true, ⟨0⟩⟩

/-- FromDate: a concrete GameDate from an instant. -/
def FromDate (t : GoTime) : GameDate := ⟨false, t⟩

/-- GameDate.IsNow. -/
def GameDate.IsNow (gd : GameDate) : Bool := gd.isNow

/-- GameDate.Date: for the symbolic case reads the wall clock (passed here
as the parameter clock), otherwise returns the stored date. -/
def GameDate.Date (gd : GameDate) (clock : GoTime) : GoTime :=
  if gd.isNow then clock else gd.date

/-- GameDate.AddDays: resolves the date (reading the wall clock if
symbolic), adds the days, and wraps the result with FromDate. -/
def GameDate.AddDays (gd : GameDate) (clock : GoTime) (days : Int) : GameDate :=
  FromDate ((gd.Date clock).addDays days)

/-! ### GameType (game_type.go) -/

/-- GameType: an int-coded game type. -/
abbrev GameType := Int

/-- GameType.IsValid: membership in the closed set
{1, 2, 3, 4, 9, 10, 12, 19, 20}. -/
def GameType.IsValid (g : GameType) : Bool :=
  g = (1 : Int) ∨ g = (2 : Int) ∨ g = (3 : Int) ∨ g = (4 : Int) ∨ g = (9 : Int) ∨
    g = (10 : Int) ∨ g = (12 : Int) ∨ g = (19 : Int) ∨ g = (20 : Int)

/-- GameType.MarshalJSON: fails on an invalid game type, else emits the
integer. -/
def GameType.MarshalJSON (g : GameType) : Option Int :=
  if g.IsValid then some g else none

/-! ### GameID codec (game_id.go) -/

/-- GameID: a wrapper around a 64-bit integer. -/
abbrev GameID := Int

/-- GameID.Season: re-validates the 10-digit bound, then extracts the
first four digits as the season start year. The guard makes the value
positive, so Go integer division and Nat division agree. -/
def GameID.Season (g : GameID) : Option Season :=
  if (g : Int) < 1000000000 ∨ 9999999999 < (g : Int) then none
  else some (NewSeason (((g : Int).toNat / 1000000 : Nat) : Int))

/-- GameID.GameType: re-validates the 10-digit bound, then extracts
digits 5-6 via division and modulo. -/
def GameID.GameType (g : GameID) : Option Int :=
  if (g : Int) < 1000000000 ∨ 9999999999 < (g : Int) then none
  else some ((((g : Int).toNat / 10000) % 100 : Nat) : Int)

/-- GameID.GameNumber: re-validates the 10-digit bound, then extracts the
last four digits. -/
def GameID.GameNumber (g : GameID) : Option Int :=
  if (g : Int) < 1000000000 ∨ 9999999999 < (g : Int) then none
  else some (((g : Int).toNat % 10000 : Nat) : Int)

/-- GameID.Validate: fails unless the value has exactly 10 decimal digits
and the extracted game-type segment is a known GameType. -/
def GameID.Validate (g : GameID) : Bool :=
  if (g : Int) < 1000000000 ∨ 9999999999 < (g : Int) then false
  else
    match g.GameType with
    | none => false
    | some t => NHLSpec.GameType.IsValid t

/-- GameIDFromString: strconv.ParseInt(s, 10, 64) with no further
validation. -/
def GameIDFromString (s : String) : Option GameID := ParseInt64 s

/-- A JSON document, as far as the unmarshalers in the source observe it:
an integral number, a string, or anything else. A Go json.Unmarshal into
int64 succeeds exactly on integral numbers that fit in int64. -/
inductive Json where
  | num : Int → Json
  | str : String → Json
  | other : Json

/-- json.Unmarshal of a document into an int64 target. -/
def jsonUnmarshalInt64 : Json → Option Int
  | .num n =>
    if -9223372036854775808 ≤ n ∧ n ≤ 9223372036854775807 then some n else none
  | _ => none

/-- json.Unmarshal of a document into a string target. -/
def jsonUnmarshalString : Json → Option String
  | .str s => some s
  | _ => none

/-- GameID.UnmarshalJSON: tries the integer form first, then the string
form parsed with strconv.ParseInt; no digit-count or game-type checks. -/
def GameID.UnmarshalJSON (data : Json) : Option GameID :=
  match jsonUnmarshalInt64 data with
  | some i => some i
  | none =>
    match jsonUnmarshalString data with
    | some s => ParseInt64 s
    | none => none

/-! ### Enumerated code types (enums.go)

Each Go type is a named string type; json.Marshal of a Go string produces
that string (quoted on the wire), so the marshalers are modelled as
Option String: none for the error case, some of the emitted string
otherwise. -/

/-- Position: a player position code string. -/
abbrev Position := String

/-- The Position constant for a center forward. -/
def PositionCenter : Position := "C"

/-- Position.IsValid: membership in {C, LW, RW, D, G}. -/
def Position.IsValid (p : Position) : Bool :=
  p = "C" || p = "LW" || p = "RW" || p = "D" || p = "G"

/-- Position.MarshalJSON: fails on an invalid position, else emits the
code (the raw string). -/
def Position.MarshalJSON (p : Position) : Option String :=
  if p.IsValid then some p else none

/-- Handedness: a shooting/catching hand code string. -/
abbrev Handedness := String

/-- Handedness.IsValid: membership in {L, R}. -/
def Handedness.IsValid (h : Handedness) : Bool := h = "L" || h = "R"

/-- Handedness.MarshalJSON: marshals the raw string unconditionally
(the source performs no validity check here, so that empty handedness
from upstream round-trips). -/
def Handedness.MarshalJSON (h : Handedness) : Option String := some h

/-- GoalieDecision: a goalie game-result code string. -/
abbrev GoalieDecision := String

/-- GoalieDecision.IsValid: membership in {W, L, T, OTL}. -/
def GoalieDecision.IsValid (g : GoalieDecision) : Bool :=
  g = "W" || g = "L" || g = "T" || g = "OTL"

/-- GoalieDecision.MarshalJSON: fails on an invalid decision, else emits
the raw string. -/
def GoalieDecision.MarshalJSON (g : GoalieDecision) : Option String :=
  if g.IsValid then some g else none

/-- PeriodType: a period type code string. -/
abbrev PeriodType := String

/-- PeriodType.IsValid: membership in {REG, OT, SO}. -/
def PeriodType.IsValid (p : PeriodType) : Bool :=
  p = "REG" || p = "OT" || p = "SO"

/-- PeriodType.MarshalJSON: fails on an invalid period type, else emits
the code. -/
def PeriodType.MarshalJSON (p : PeriodType) : Option String :=
  if p.IsValid then some p else none

/-- HomeRoad: a home/road code string. -/
abbrev HomeRoad := String

/-- HomeRoad.IsValid: membership in {H, R}. -/
def HomeRoad.IsValid (h : HomeRoad) : Bool := h = "H" || h = "R"

/-- HomeRoad.MarshalJSON: fails on an invalid value, else emits the code. -/
def HomeRoad.MarshalJSON (h : HomeRoad) : Option String :=
  if h.IsValid then some h else none

/-- ZoneCode: an ice zone code string. -/
abbrev ZoneCode := String

/-- ZoneCode.IsValid: membership in {O, D, N}. -/
def ZoneCode.IsValid (z : ZoneCode) : Bool := z = "O" || z = "D" || z = "N"

/-- ZoneCode.MarshalJSON: fails on an invalid zone, else emits the code. -/
def ZoneCode.MarshalJSON (z : ZoneCode) : Option String :=
  if z.IsValid then some z else none

/-- DefendingSide: a defending-side string. -/
abbrev DefendingSide := String

/-- DefendingSide.IsValid: membership in {left, right}. -/
def DefendingSide.IsValid (d : DefendingSide) : Bool :=
  d = "left" || d = "right"

/-- DefendingSide.MarshalJSON: the empty string is allowed through for old
games that lack this data; any other invalid value fails. -/
def DefendingSide.MarshalJSON (d : DefendingSide) : Option String :=
  if d = "" then some ""
  else if d.IsValid then some d else none

/-- GameScheduleState: a schedule-state string. -/
abbrev GameScheduleState := String

/-- GameScheduleState.IsValid: membership in
{OK, DONT_PLAY, PPD, SUSP, TBD, COMPLETED, CNCL}. -/
def GameScheduleState.IsValid (g : GameScheduleState) : Bool :=
  g = "OK" || g = "DONT_PLAY" || g = "PPD" || g = "SUSP" || g = "TBD" ||
    g = "COMPLETED" || g = "CNCL"

/-- GameScheduleState.MarshalJSON: fails on an invalid state, else emits
the raw string. -/
def GameScheduleState.MarshalJSON (g : GameScheduleState) : Option String :=
  if g.IsValid then some g else none

/-- PlayEventType: a play-by-play event type string. -/
abbrev PlayEventType := String

/-- PlayEventType.IsValid: membership in the closed set of 18 event type
strings. -/
def PlayEventType.IsValid (p : PlayEventType) : Bool :=
  p = "game-start" || p = "period-start" || p = "period-end" ||
    p = "game-end" || p = "faceoff" || p = "hit" || p = "giveaway" ||
    p = "takeaway" || p = "shot-on-goal" || p = "missed-shot" ||
    p = "blocked-shot" || p = "goal" || p = "penalty" || p = "stoppage" ||
    p = "delayed-penalty" || p = "failed-shot-attempt" ||
    p = "shootout-complete" || p = "unknown"

/-- PlayEventType.MarshalJSON: fails on an invalid event type, else emits
the raw string. -/
def PlayEventType.MarshalJSON (p : PlayEventType) : Option String :=
  if p.IsValid then some p else none

/-! ### GameSituation codec (game_center.go) -/

/-- GameSituation: the parsed view of a 4-character situation code. -/
structure GameSituation where
  AwaySkaters : Int
  AwayGoalieIn : Bool
  HomeSkaters : Int
  HomeGoalieIn : Bool
deriving DecidableEq

/-- GameSituationFromCode: nil unless the code is exactly 4 characters;
the two skater positions must be single decimal digits (parsed with
strconv.Atoi on the 1-character string); the goalie positions are
compared to '1' and never rejected. -/
def GameSituationFromCode (code : String) : Option GameSituation :=
  match code.data with
  | [awayGoalieDigit, awaySkaterDigit, homeSkaterDigit, homeGoalieDigit] =>
    match Atoi (String.singleton awaySkaterDigit),
        Atoi (String.singleton homeSkaterDigit) with
    | some awaySkaters, some homeSkaters =>
      some
        { AwaySkaters := awaySkaters
          AwayGoalieIn := awayGoalieDigit == '1'
          HomeSkaters := homeSkaters
          HomeGoalieIn := homeGoalieDigit == '1' }
    | _, _ => none
  | _ => none

/-- GameSituation.IsEvenStrength. -/
def GameSituation.IsEvenStrength (g : GameSituation) : Bool :=
  g.AwaySkaters == g.HomeSkaters

/-- GameSituation.IsEmptyNet: true when either goalie is out. -/
def GameSituation.IsEmptyNet (g : GameSituation) : Bool :=
  !g.AwayGoalieIn || !g.HomeGoalieIn

/-- GameSituation.StrengthDescription: "AvH" from the two skater counts,
with " EN" appended when either goalie is out, else " PP" when the counts
differ, else no suffix. -/
def GameSituation.StrengthDescription (g : GameSituation) : String :=
  let base := intRepr g.AwaySkaters ++ "v" ++ intRepr g.HomeSkaters
  if !g.AwayGoalieIn || !g.HomeGoalieIn then base ++ " EN"
  else if g.AwaySkaters != g.HomeSkaters then base ++ " PP"
  else base

/-! ### Team statistics aggregator (boxscore.go)

Only the fields the aggregation reads are modelled; the remaining
SkaterStats and GoalieStats fields are pass-through wire data the
aggregator never touches. -/

/-- SkaterStats: the per-skater fields read by the aggregator. -/
structure SkaterStats where
  Position : Position
  PIM : Int
  Hits : Int
  PowerPlayGoals : Int
  SOG : Int
  FaceoffWinningPctg : ℚ
  BlockedShots : Int
  Shifts : Int
  Giveaways : Int
  Takeaways : Int

/-- GoalieStats: the per-goalie fields read by the aggregator (PIM is an
optional pointer in the source). -/
structure GoalieStats where
  PowerPlayGoalsAgainst : Int
  PIM : Option Int

/-- TeamPlayerStats: a team's player statistics grouped by position. -/
structure TeamPlayerStats where
  Forwards : List SkaterStats
  Defense : List SkaterStats
  Goalies : List GoalieStats

/-- TeamGameStats: the aggregated team statistics. -/
structure TeamGameStats where
  ShotsOnGoal : Int
  FaceoffWins : Int
  FaceoffTotal : Int
  PowerPlayGoals : Int
  PowerPlayOpportunities : Int
  PenaltyMinutes : Int
  Hits : Int
  BlockedShots : Int
  Giveaways : Int
  Takeaways : Int
deriving DecidableEq

/-- The Go zero value of TeamGameStats. -/
def TeamGameStats.zero : TeamGameStats := ⟨0, 0, 0, 0, 0, 0, 0, 0, 0, 0⟩

/-- addFaceoffStats: a center with a strictly positive faceoff winning
percentage contributes its shift count to the faceoff total and
int(shifts × pctg + 0.5) to the faceoff wins; every other skater
contributes nothing. -/
def addFaceoffStats (teamStats : TeamGameStats) (skater : SkaterStats) : TeamGameStats :=
  if skater.Position = PositionCenter ∧ 0 < skater.FaceoffWinningPctg then
    { teamStats with
      FaceoffTotal := teamStats.FaceoffTotal + skater.Shifts
      FaceoffWins := teamStats.FaceoffWins +
        goTruncToInt ((skater.Shifts : ℚ) * skater.FaceoffWinningPctg + 1/2) }
  else teamStats

/-- The faceoff-total contribution of one skater in the aggregation: the
shift count for a center with positive winning percentage, else 0. -/
def SkaterStats.faceoffTotalContrib (sk : SkaterStats) : Int :=
  if sk.Position = PositionCenter ∧ 0 < sk.FaceoffWinningPctg then sk.Shifts else 0

/-- The faceoff-wins contribution of one skater in the aggregation:
int(shifts × pctg + 0.5) for a center with positive winning percentage,
else 0. -/
def SkaterStats.faceoffWinsContrib (sk : SkaterStats) : Int :=
  if sk.Position = PositionCenter ∧ 0 < sk.FaceoffWinningPctg then
    goTruncToInt ((sk.Shifts : ℚ) * sk.FaceoffWinningPctg + 1/2)
  else 0

/-- The per-skater step of aggregateSkaterStats: accumulate the seven
plain sums, then the faceoff estimate. -/
def aggregateSkater (teamStats : TeamGameStats) (skater : SkaterStats) : TeamGameStats :=
  addFaceoffStats
    { teamStats with
      ShotsOnGoal := teamStats.ShotsOnGoal + skater.SOG
      PowerPlayGoals := teamStats.PowerPlayGoals + skater.PowerPlayGoals
      PenaltyMinutes := teamStats.PenaltyMinutes + skater.PIM
      Hits := teamStats.Hits + skater.Hits
      BlockedShots := teamStats.BlockedShots + skater.BlockedShots
      Giveaways := teamStats.Giveaways + skater.Giveaways
      Takeaways := teamStats.Takeaways + skater.Takeaways }
    skater

/-- aggregateSkaterStats: folds the per-skater step over forwards
followed by defense. -/
def aggregateSkaterStats (teamStats : TeamGameStats) (stats : TeamPlayerStats) : TeamGameStats :=
  (stats.Forwards ++ stats.Defense).foldl aggregateSkater teamStats

/-- The per-goalie step of aggregateGoalieStats: non-nil PIM adds to the
penalty minutes; PowerPlayGoalsAgainst adds to the power-play
opportunities. -/
def aggregateGoalie (teamStats : TeamGameStats) (goalie : GoalieStats) : TeamGameStats :=
  let withPIM :=
    match goalie.PIM with
    | some pim => { teamStats with PenaltyMinutes := teamStats.PenaltyMinutes + pim }
    | none => teamStats
  { withPIM with
    PowerPlayOpportunities := withPIM.PowerPlayOpportunities + goalie.PowerPlayGoalsAgainst }

/-- aggregateGoalieStats: folds the per-goalie step over the goalies. -/
def aggregateGoalieStats (teamStats : TeamGameStats) (stats : TeamPlayerStats) : TeamGameStats :=
  stats.Goalies.foldl aggregateGoalie teamStats

/-- FromTeamPlayerStats: aggregates a zero TeamGameStats over the skaters
and then the goalies. -/
def FromTeamPlayerStats (stats : TeamPlayerStats) : TeamGameStats :=
  aggregateGoalieStats (aggregateSkaterStats TeamGameStats.zero stats) stats

/-- TeamGameStats.FaceoffPercentage: 100 × wins / total, or exactly 0 when
the total is not positive (the division is never executed then). -/
def TeamGameStats.FaceoffPercentage (t : TeamGameStats) : ℚ :=
  if 0 < t.FaceoffTotal then
    ((t.FaceoffWins : ℚ) / (t.FaceoffTotal : ℚ)) * 100
  else 0

/-- TeamGameStats.PowerPlayPercentage: 100 × goals / opportunities, or
exactly 0 when the opportunity count is not positive. -/
def TeamGameStats.PowerPlayPercentage (t : TeamGameStats) : ℚ :=
  if 0 < t.PowerPlayOpportunities then
    ((t.PowerPlayGoals : ℚ) / (t.PowerPlayOpportunities : ℚ)) * 100
  else 0

/-! ### Supporting lemmas -/

theorem natDigitsF_eq_natDigits : ∀ n fuel, n < fuel → natDigitsF fuel n = natDigits n := by
  intro n
  induction n using Nat.strong_induction_on with
  | _ n ih =>
    intro fuel h
    match fuel with
    | f + 1 =>
      unfold natDigits
      by_cases h10 : n < 10
      · simp [natDigitsF, h10]
      · have hm : n / 10 < n := Nat.div_lt_self (by omega) (by omega)
        simp only [natDigitsF, if_neg h10]
        rw [ih (n / 10) hm f (by omega), ih (n / 10) hm n (by omega)]

theorem natDigits_def (n : Nat) :
    natDigits n = if n < 10 then [digitCh n] else natDigits (n / 10) ++ [digitCh (n % 10)] := by
  have h0 : natDigits n = natDigitsF (n + 1) n := rfl
  rw [h0]
  by_cases h10 : n < 10
  · simp [natDigitsF, h10]
  · have hm : n / 10 < n := Nat.div_lt_self (by omega) (by omega)
    rw [if_neg h10]
    have h1 : natDigitsF (n + 1) n = natDigitsF n (n / 10) ++ [digitCh (n % 10)] := by
      simp [natDigitsF, h10]
    rw [h1, natDigitsF_eq_natDigits (n / 10) n hm]

theorem isDigitCh_digitCh (d : Nat) (h : d < 10) : isDigitCh (digitCh d) = true := by
  interval_cases d <;> decide

theorem digitVal_digitCh (d : Nat) (h : d < 10) : digitVal (digitCh d) = d := by
  interval_cases d <;> decide

theorem natDigits_ne_nil (n : Nat) : natDigits n ≠ [] := by
  rw [natDigits_def]
  split <;> simp

theorem natDigits_all_digit (n : Nat) : (natDigits n).all isDigitCh = true := by
  induction n using Nat.strong_induction_on with
  | _ n ih =>
    rw [natDigits_def]
    by_cases h10 : n < 10
    · simp [h10, isDigitCh_digitCh n h10]
    · have hm : n / 10 < n := Nat.div_lt_self (by omega) (by omega)
      simp [h10, List.all_append, ih (n / 10) hm,
        isDigitCh_digitCh (n % 10) (Nat.mod_lt n (by omega))]

theorem natDigits_foldl (n : Nat) :
    ∀ a, (natDigits n).foldl digitStep a = a * 10 ^ (natDigits n).length + n := by
  induction n using Nat.strong_induction_on with
  | _ n ih =>
    intro a
    rw [natDigits_def]
    by_cases h10 : n < 10
    · simp [h10, digitStep, digitVal_digitCh n h10]
    · have hm : n / 10 < n := Nat.div_lt_self (by omega) (by omega)
      rw [if_neg h10, List.foldl_append, ih (n / 10) hm a]
      simp only [List.foldl_cons, List.foldl_nil, digitStep,
        digitVal_digitCh (n % 10) (Nat.mod_lt n (by omega)),
        List.length_append, List.length_cons, List.length_nil]
      have hdm : n / 10 * 10 + n % 10 = n := Nat.div_add_mod' n 10
      calc (a * 10 ^ (natDigits (n / 10)).length + n / 10) * 10 + n % 10
          = a * 10 ^ ((natDigits (n / 10)).length + (0 + 1)) + (n / 10 * 10 + n % 10) := by ring
        _ = a * 10 ^ ((natDigits (n / 10)).length + (0 + 1)) + n := by rw [hdm]

theorem natDigits_length (k : Nat) :
    ∀ n, 10 ^ k ≤ n → n < 10 ^ (k + 1) → (natDigits n).length = k + 1 := by
  induction k with
  | zero =>
    intro n hlo hhi
    rw [natDigits_def, if_pos (by omega)]
    rfl
  | succ k ih =>
    intro n hlo hhi
    have h10 : ¬ n < 10 := by
      have : (10:Nat) ^ 1 ≤ 10 ^ (k + 1) := Nat.pow_le_pow_right (by omega) (by omega)
      simp only [pow_one] at this
      omega
    rw [natDigits_def, if_neg h10]
    have hdlo : 10 ^ k ≤ n / 10 := by
      rw [Nat.le_div_iff_mul_le (by omega)]
      calc 10 ^ k * 10 = 10 ^ (k + 1) := by rw [pow_succ]
        _ ≤ n := hlo
    have hdhi : n / 10 < 10 ^ (k + 1) := by
      rw [Nat.div_lt_iff_lt_mul (by omega)]
      calc n < 10 ^ (k + 2) := hhi
        _ = 10 ^ (k + 1) * 10 := by rw [pow_succ]
    rw [List.length_append, ih (n / 10) hdlo hdhi]
    rfl


theorem isDigitCh_ne_plus (c : Char) (h : isDigitCh c = true) : c ≠ '+' := by
  intro hc
  subst hc
  simp [isDigitCh] at h

theorem isDigitCh_ne_minus (c : Char) (h : isDigitCh c = true) : c ≠ '-' := by
  intro hc
  subst hc
  simp [isDigitCh] at h

theorem ParseInt64_of_all_digits (s : String) (hne : s.data ≠ [])
    (hall : s.data.all isDigitCh = true)
    (hbound : s.data.foldl digitStep 0 ≤ 9223372036854775807) :
    ParseInt64 s = some ((s.data.foldl digitStep 0 : Nat) : Int) := by
  match hd : s.data, hne with
  | c :: rest, _ =>
    rw [hd] at hall hbound
    have hc : isDigitCh c = true := by
      rw [List.all_cons] at hall
      exact (Bool.and_eq_true_iff.mp hall).1
    have hparse : parseNatDigits (c :: rest) = some ((c :: rest).foldl digitStep 0) := by
      rw [parseNatDigits, if_neg (by simp), if_pos hall]
    rw [ParseInt64, hd, goParseIntCore,
      if_neg (isDigitCh_ne_plus c hc), if_neg (isDigitCh_ne_minus c hc), hparse]
    rw [Option.map_some', Option.some_bind, if_pos]
    constructor <;> omega

theorem all_digit_not_contains_dash (l : List Char) (hall : l.all isDigitCh = true) :
    l.contains '-' = false := by
  rw [List.all_eq_true] at hall
  by_contra h
  rw [Bool.not_eq_false] at h
  have h2 : '-' ∈ l := by simpa using h
  exact absurd (hall '-' h2) (by decide)


theorem pow3 : (10 : Nat) ^ 3 = 1000 := by norm_num

theorem pow4 : (10 : Nat) ^ 4 = 10000 := by norm_num

theorem natDigits_foldl_zero (n : Nat) : (natDigits n).foldl digitStep 0 = n := by
  have h := natDigits_foldl n 0
  simpa using h

theorem natDigits_length4 (m : Nat) (hlo : 1000 ≤ m) (hhi : m ≤ 9999) :
    (natDigits m).length = 4 := by
  have h3 : (10 : Nat) ^ 3 = 1000 := by norm_num
  have h4 : (10 : Nat) ^ (3 + 1) = 10000 := by norm_num
  have := natDigits_length 3 m (by omega) (by omega)
  simpa using this

theorem Atoi_natDigits (m : Nat) (hbound : m ≤ 9223372036854775807) :
    Atoi (String.mk (natDigits m)) = some (m : Int) := by
  have h := ParseInt64_of_all_digits (String.mk (natDigits m))
    (by simpa using natDigits_ne_nil m)
    (by simpa using natDigits_all_digit m)
    (by simpa [natDigits_foldl_zero m] using hbound)
  rw [Atoi, h]
  simp [natDigits_foldl_zero m]

/-! ### Claim theorems -/

/-- C3: GameID.Validate succeeds on 1000010000 and 9999049999, fails on the
9-digit 999999999 and the 11-digit 10000000000, and fails on 2023050001
(game-type segment 05) even though the raw decomposition GameType still
succeeds there and returns 5: digit-bound decomposition and semantic
game-type validation are separate checks. -/
theorem c3_gameID_boundary_validation :
    GameID.Validate (1000010000 : Int) = true ∧
      GameID.Validate (9999049999 : Int) = true ∧
      GameID.Validate (999999999 : Int) = false ∧
      GameID.Validate (10000000000 : Int) = false ∧
      GameID.Validate (2023050001 : Int) = false ∧
      GameID.GameType (2023050001 : Int) = some 5 := by
  decide

/-- C7: for every GameID in the 10-digit range, Season, GameType and
GameNumber all succeed, they recombine to the original value as
startYear·1000000 + gameType·10000 + gameNumber, and when the extracted
game type is a known code, Validate succeeds. -/
theorem c7_gameID_decomposition_recombines (g : Int)
    (h1 : 1000000000 ≤ g) (h2 : g ≤ 9999999999) :
    (GameID.Season g).isSome = true ∧
      (GameID.GameType g).isSome = true ∧
      (GameID.GameNumber g).isSome = true ∧
      ∀ s t n, GameID.Season g = some s → GameID.GameType g = some t →
        GameID.GameNumber g = some n →
        s.startYear * 1000000 + t * 10000 + n = g ∧
          (GameType.IsValid t = true → GameID.Validate g = true) := by
  have hng : ¬ ((g : Int) < 1000000000 ∨ 9999999999 < (g : Int)) := by omega
  refine ⟨?_, ?_, ?_, ?_⟩
  · rw [GameID.Season, if_neg hng]; rfl
  · rw [GameID.GameType, if_neg hng]; rfl
  · rw [GameID.GameNumber, if_neg hng]; rfl
  · intro s t n hs ht hn
    rw [GameID.Season, if_neg hng, Option.some_inj] at hs
    rw [GameID.GameType, if_neg hng, Option.some_inj] at ht
    rw [GameID.GameNumber, if_neg hng, Option.some_inj] at hn
    subst hs; subst ht; subst hn
    constructor
    · simp only [NewSeason]
      omega
    · intro hv
      rw [GameID.Validate, if_neg hng, GameID.GameType, if_neg hng]
      exact hv

/-- Witness for C7: instantiated at the regular-season game 2023020001,
which decomposes into season 2023, game type 2 and game number 1. -/
theorem c7_gameID_decomposition_recombines_witness :
    (GameID.Season (2023020001 : Int)).isSome = true ∧
      (NewSeason 2023).startYear * 1000000 + 2 * 10000 + 1 = (2023020001 : Int) ∧
      GameID.Validate (2023020001 : Int) = true := by
  have h := c7_gameID_decomposition_recombines 2023020001 (by norm_num) (by norm_num)
  have h4 := h.2.2.2 (NewSeason 2023) 2 1 (by decide) (by decide) (by decide)
  exact ⟨h.1, h4.1, h4.2 (by decide)⟩

/-- C8: the derived rate methods return exactly 0 when their denominator
is zero; the guarded division is never executed then, so no division by
zero or NaN can arise. -/
theorem c8_percentages_zero_denominator (t u : TeamGameStats)
    (hf : t.FaceoffTotal = 0) (hp : u.PowerPlayOpportunities = 0) :
    t.FaceoffPercentage = 0 ∧ u.PowerPlayPercentage = 0 := by
  constructor
  · rw [TeamGameStats.FaceoffPercentage, if_neg (by omega)]
  · rw [TeamGameStats.PowerPlayPercentage, if_neg (by omega)]

/-- Witness for C8: the zero TeamGameStats has both percentages 0. -/
theorem c8_percentages_zero_denominator_witness :
    TeamGameStats.zero.FaceoffPercentage = 0 ∧
      TeamGameStats.zero.PowerPlayPercentage = 0 :=
  c8_percentages_zero_denominator TeamGameStats.zero TeamGameStats.zero rfl rfl

/-- C9: AddDays always produces a non-symbolic GameDate; a symbolic
instance is first resolved against the wall clock, so the result is the
fixed date clock + days. -/
theorem c9_addDays_always_concrete (gd : GameDate) (clock : GoTime) (days : Int) :
    (gd.AddDays clock days).IsNow = false ∧
      (gd.isNow = true → gd.AddDays clock days = FromDate (clock.addDays days)) := by
  constructor
  · rfl
  · intro h
    rw [GameDate.AddDays, GameDate.Date, if_pos h]

/-- Witness for C9: adding 3 days to the symbolic now at clock 0. -/
theorem c9_addDays_always_concrete_witness :
    (GameDateNow.AddDays ⟨0⟩ 3).IsNow = false ∧
      GameDateNow.AddDays ⟨0⟩ 3 = FromDate (GoTime.addDays ⟨0⟩ 3) :=
  ⟨(c9_addDays_always_concrete GameDateNow ⟨0⟩ 3).1,
    (c9_addDays_always_concrete GameDateNow ⟨0⟩ 3).2 rfl⟩

/-- C10: GameIDFromString and GameID.UnmarshalJSON perform no digit-count
or game-type validation: any string strconv.ParseInt accepts (including
short and negative values) and any int64-representable JSON integer yields
a GameID without error; invalidity surfaces only later through Validate or
the decomposition accessors. -/
theorem c10_gameID_parse_without_validation :
    (∀ s : String, ∀ n : Int, ParseInt64 s = some n → GameIDFromString s = some n) ∧
      (∀ n : Int, -9223372036854775808 ≤ n → n ≤ 9223372036854775807 →
        GameID.UnmarshalJSON (Json.num n) = some n) ∧
      GameIDFromString "123" = some 123 ∧
      GameIDFromString "-5" = some (-5) ∧
      GameIDFromString "10000000000" = some 10000000000 ∧
      GameID.Validate (123 : Int) = false ∧
      (GameID.GameType (123 : Int)).isSome = false := by
  refine ⟨fun s n h => h, fun n hlo hhi => ?_, by decide, by decide, by decide, by decide, by decide⟩
  have hj : jsonUnmarshalInt64 (Json.num n) = some n := by
    rw [jsonUnmarshalInt64, if_pos ⟨hlo, hhi⟩]
  rw [GameID.UnmarshalJSON, hj]

/-- Witness for C10: the 3-digit string "123" and the JSON integer 123
both produce GameIDs without error. -/
theorem c10_gameID_parse_without_validation_witness :
    GameIDFromString "123" = some 123 ∧
      GameID.UnmarshalJSON (Json.num 123) = some 123 :=
  ⟨c10_gameID_parse_without_validation.1 "123" 123 (by decide),
    c10_gameID_parse_without_validation.2.1 123 (by decide) (by decide)⟩

/-- C4 counterexample: the claim asserts every invalid non-empty value of
an enumerated type fails to serialize, Handedness and DefendingSide being
exempt only for the empty string; but Handedness.MarshalJSON performs no
validity check at all, so the invalid non-empty Handedness "X" serializes
successfully to "X". -/
theorem c4_handedness_marshal_counterexample :
    Handedness.IsValid "X" = false ∧ ("X" : String) ≠ "" ∧
      Handedness.MarshalJSON "X" = some "X" := by
  refine ⟨by decide, by decide, rfl⟩

/-- C4 (amended): Handedness("") and DefendingSide("") serialize to "";
Handedness.MarshalJSON in fact never fails, emitting the raw string for
any value whatsoever; DefendingSide fails on invalid non-empty values; and
every other enumerated code type (Position, GoalieDecision, PeriodType,
HomeRoad, ZoneCode, GameScheduleState, PlayEventType, GameType) fails on
any invalid value, the empty value being invalid for each of them. -/
theorem c4_enum_marshal_invalid_fails :
    Handedness.MarshalJSON "" = some "" ∧
      DefendingSide.MarshalJSON "" = some "" ∧
      (∀ h : Handedness, Handedness.MarshalJSON h = some h) ∧
      (∀ d : DefendingSide, d ≠ "" → DefendingSide.IsValid d = false →
        DefendingSide.MarshalJSON d = none) ∧
      (∀ p : Position, Position.IsValid p = false → Position.MarshalJSON p = none) ∧
      (∀ g : GoalieDecision, GoalieDecision.IsValid g = false →
        GoalieDecision.MarshalJSON g = none) ∧
      (∀ p : PeriodType, PeriodType.IsValid p = false → PeriodType.MarshalJSON p = none) ∧
      (∀ h : HomeRoad, HomeRoad.IsValid h = false → HomeRoad.MarshalJSON h = none) ∧
      (∀ z : ZoneCode, ZoneCode.IsValid z = false → ZoneCode.MarshalJSON z = none) ∧
      (∀ g : GameScheduleState, GameScheduleState.IsValid g = false →
        GameScheduleState.MarshalJSON g = none) ∧
      (∀ p : PlayEventType, PlayEventType.IsValid p = false →
        PlayEventType.MarshalJSON p = none) ∧
      (∀ t : GameType, GameType.IsValid t = false → GameType.MarshalJSON t = none) ∧
      Position.IsValid "" = false ∧ GoalieDecision.IsValid "" = false ∧
      PeriodType.IsValid "" = false ∧ HomeRoad.IsValid "" = false ∧
      ZoneCode.IsValid "" = false ∧ GameScheduleState.IsValid "" = false ∧
      PlayEventType.IsValid "" = false := by
  refine ⟨rfl, rfl, fun h => rfl, ?_, ?_, ?_, ?_, ?_, ?_, ?_, ?_, ?_,
    by decide, by decide, by decide, by decide, by decide, by decide, by decide⟩
  · intro d hne hv
    rw [DefendingSide.MarshalJSON, if_neg hne, if_neg (by simp [hv])]
  · intro p hv
    rw [Position.MarshalJSON, if_neg (by simp [hv])]
  · intro g hv
    rw [GoalieDecision.MarshalJSON, if_neg (by simp [hv])]
  · intro p hv
    rw [PeriodType.MarshalJSON, if_neg (by simp [hv])]
  · intro h hv
    rw [HomeRoad.MarshalJSON, if_neg (by simp [hv])]
  · intro z hv
    rw [ZoneCode.MarshalJSON, if_neg (by simp [hv])]
  · intro g hv
    rw [GameScheduleState.MarshalJSON, if_neg (by simp [hv])]
  · intro p hv
    rw [PlayEventType.MarshalJSON, if_neg (by simp [hv])]
  · intro t hv
    rw [GameType.MarshalJSON, if_neg (by simp [hv])]

/-- Witness for C4: the hypothesis-bearing components instantiated at the
invalid value "X" (and game type 5), plus the valid Handedness "L". -/
theorem c4_enum_marshal_invalid_fails_witness :
    DefendingSide.MarshalJSON "X" = none ∧
      Position.MarshalJSON "X" = none ∧
      GoalieDecision.MarshalJSON "X" = none ∧
      PeriodType.MarshalJSON "X" = none ∧
      HomeRoad.MarshalJSON "X" = none ∧
      ZoneCode.MarshalJSON "X" = none ∧
      GameScheduleState.MarshalJSON "X" = none ∧
      PlayEventType.MarshalJSON "X" = none ∧
      GameType.MarshalJSON (5 : Int) = none ∧
      Handedness.MarshalJSON "L" = some "L" := by
  obtain ⟨-, -, hhand, hds, hpos, hgd, hpt, hhr, hzc, hgss, hpet, hgt, -⟩ :=
    c4_enum_marshal_invalid_fails
  exact ⟨hds "X" (by decide) (by decide), hpos "X" (by decide), hgd "X" (by decide),
    hpt "X" (by decide), hhr "X" (by decide), hzc "X" (by decide),
    hgss "X" (by decide), hpet "X" (by decide), hgt 5 (by decide), hhand "L"⟩

theorem Atoi_singleton (c : Char) :
    Atoi (String.singleton c) =
      if isDigitCh c = true then some ((digitVal c : Nat) : Int) else none := by
  have hdata : (String.singleton c).data = [c] := rfl
  rw [Atoi, ParseInt64, hdata, goParseIntCore]
  by_cases hplus : c = '+'
  · subst hplus
    simp [parseNatDigits, isDigitCh]
  by_cases hminus : c = '-'
  · subst hminus
    simp [parseNatDigits, isDigitCh]
  rw [if_neg hplus, if_neg hminus, parseNatDigits, if_neg (by simp)]
  by_cases hd : isDigitCh c = true
  · have hval : [c].foldl digitStep 0 = digitVal c := by simp [digitStep]
    have hb : c.toNat ≤ 57 := by
      have h' := hd
      simp [isDigitCh] at h'
      omega
    have h9 : digitVal c ≤ 9 := by rw [digitVal]; omega
    rw [if_pos (by simp [hd]), hval, Option.map_some', Option.some_bind,
      if_pos (by constructor <;> omega), if_pos hd]
  · rw [if_neg (by simp [hd]), if_neg hd]
    rfl

theorem gameSituationFromCode_eq_some (code : String) (c0 c1 c2 c3 : Char)
    (hl : code.data = [c0, c1, c2, c3])
    (hd1 : isDigitCh c1 = true) (hd2 : isDigitCh c2 = true) :
    GameSituationFromCode code =
      some ⟨((digitVal c1 : Nat) : Int), c0 == '1', ((digitVal c2 : Nat) : Int), c3 == '1'⟩ := by
  have h1 := Atoi_singleton c1
  have h2 := Atoi_singleton c2
  rw [if_pos hd1] at h1
  rw [if_pos hd2] at h2
  rw [GameSituationFromCode, hl]
  show (match Atoi (String.singleton c1), Atoi (String.singleton c2) with
    | some awaySkaters, some homeSkaters =>
      some (GameSituation.mk awaySkaters (c0 == '1') homeSkaters (c3 == '1'))
    | _, _ => none) = _
  rw [h1, h2]

theorem gameSituationFromCode_eq_none (code : String) (c0 c1 c2 c3 : Char)
    (hl : code.data = [c0, c1, c2, c3])
    (hnd : isDigitCh c1 = false ∨ isDigitCh c2 = false) :
    GameSituationFromCode code = none := by
  rw [GameSituationFromCode, hl]
  show (match Atoi (String.singleton c1), Atoi (String.singleton c2) with
    | some awaySkaters, some homeSkaters =>
      some (GameSituation.mk awaySkaters (c0 == '1') homeSkaters (c3 == '1'))
    | _, _ => none) = none
  rcases hnd with h | h
  · rw [Atoi_singleton c1, if_neg (by simp [h])]
  · rw [Atoi_singleton c2, if_neg (by simp [h])]
    rcases h1 : Atoi (String.singleton c1) with - | v
    · rfl
    · rfl

/-- C5: GameSituationFromCode succeeds exactly on 4-character codes whose
two middle characters are decimal digits; on success the skater counts are
those digit values and each goalie flag is the comparison of the boundary
character with '1', so an arbitrary non-digit character at a goalie
position yields goalie-absent without the code being rejected. -/
theorem c5_gameSituation_parse_characterization (code : String) :
    ((GameSituationFromCode code).isSome = true ↔
      ∃ c0 c1 c2 c3, code.data = [c0, c1, c2, c3] ∧
        isDigitCh c1 = true ∧ isDigitCh c2 = true) ∧
      (∀ c0 c1 c2 c3, code.data = [c0, c1, c2, c3] →
        isDigitCh c1 = true → isDigitCh c2 = true →
        GameSituationFromCode code =
          some ⟨((digitVal c1 : Nat) : Int), c0 == '1',
            ((digitVal c2 : Nat) : Int), c3 == '1'⟩) := by
  constructor
  · constructor
    · intro hsome
      match hl : code.data with
      | [] => rw [GameSituationFromCode, hl] at hsome; simp at hsome
      | [a] => rw [GameSituationFromCode, hl] at hsome; simp at hsome
      | [a, b] => rw [GameSituationFromCode, hl] at hsome; simp at hsome
      | [a, b, c] => rw [GameSituationFromCode, hl] at hsome; simp at hsome
      | a :: b :: c :: d :: e :: rest =>
        rw [GameSituationFromCode, hl] at hsome; simp at hsome
      | [c0, c1, c2, c3] =>
        by_cases hd1 : isDigitCh c1 = true
        · by_cases hd2 : isDigitCh c2 = true
          · exact ⟨c0, c1, c2, c3, rfl, hd1, hd2⟩
          · rw [gameSituationFromCode_eq_none code c0 c1 c2 c3 hl
              (Or.inr (by simpa using hd2))] at hsome
            simp at hsome
        · rw [gameSituationFromCode_eq_none code c0 c1 c2 c3 hl
            (Or.inl (by simpa using hd1))] at hsome
          simp at hsome
    · rintro ⟨c0, c1, c2, c3, hl, hd1, hd2⟩
      rw [gameSituationFromCode_eq_some code c0 c1 c2 c3 hl hd1 hd2]
      rfl
  · intro c0 c1 c2 c3 hl hd1 hd2
    exact gameSituationFromCode_eq_some code c0 c1 c2 c3 hl hd1 hd2

/-- Witness for C5: the code "1551" parses to 5 skaters a side with both
goalies in, and the code "X55X" (arbitrary goalie characters) still parses,
with both goalies reported absent. -/
theorem c5_gameSituation_parse_characterization_witness :
    GameSituationFromCode "1551" = some ⟨5, true, 5, true⟩ ∧
      GameSituationFromCode "X55X" = some ⟨5, false, 5, false⟩ ∧
      (GameSituationFromCode "1a51").isSome = false := by
  refine ⟨?_, ?_, ?_⟩
  · have h := (c5_gameSituation_parse_characterization "1551").2
      '1' '5' '5' '1' rfl (by decide) (by decide)
    rw [h]
    decide
  · have h := (c5_gameSituation_parse_characterization "X55X").2
      'X' '5' '5' 'X' rfl (by decide) (by decide)
    rw [h]
    decide
  · decide

/-- C6: StrengthDescription is the away and home skater counts joined by
"v", suffixed with " EN" as soon as either goalie is absent, otherwise
with " PP" when the counts differ, otherwise unsuffixed; " EN" takes
precedence, so "1551" yields "5v5", "0651" yields "6v5 EN" and "0641"
yields "6v4 EN". -/
theorem c6_strength_description (g : GameSituation) :
    g.StrengthDescription =
      (intRepr g.AwaySkaters ++ "v" ++ intRepr g.HomeSkaters) ++
        (if (!g.AwayGoalieIn || !g.HomeGoalieIn) = true then " EN"
          else if g.AwaySkaters ≠ g.HomeSkaters then " PP" else "") ∧
      (GameSituationFromCode "1551").map GameSituation.StrengthDescription = some "5v5" ∧
      (GameSituationFromCode "0651").map GameSituation.StrengthDescription = some "6v5 EN" ∧
      (GameSituationFromCode "0641").map GameSituation.StrengthDescription = some "6v4 EN" := by
  refine ⟨?_, by decide, by decide, by decide⟩
  rw [GameSituation.StrengthDescription]
  by_cases hen : (!g.AwayGoalieIn || !g.HomeGoalieIn) = true
  · rw [if_pos hen, if_pos hen]
  · rw [if_neg hen, if_neg hen]
    by_cases hpp : g.AwaySkaters ≠ g.HomeSkaters
    · rw [if_pos (by simpa [bne_iff_ne] using hpp), if_pos hpp]
    · rw [if_neg (by simpa [bne_iff_ne] using hpp), if_neg hpp]
      exact (String.append_empty _).symm

theorem foldl_aggregateSkater (l : List SkaterStats) (ts : TeamGameStats) :
    l.foldl aggregateSkater ts = ⟨
      ts.ShotsOnGoal + (l.map SkaterStats.SOG).sum,
      ts.FaceoffWins + (l.map SkaterStats.faceoffWinsContrib).sum,
      ts.FaceoffTotal + (l.map SkaterStats.faceoffTotalContrib).sum,
      ts.PowerPlayGoals + (l.map SkaterStats.PowerPlayGoals).sum,
      ts.PowerPlayOpportunities,
      ts.PenaltyMinutes + (l.map SkaterStats.PIM).sum,
      ts.Hits + (l.map SkaterStats.Hits).sum,
      ts.BlockedShots + (l.map SkaterStats.BlockedShots).sum,
      ts.Giveaways + (l.map SkaterStats.Giveaways).sum,
      ts.Takeaways + (l.map SkaterStats.Takeaways).sum⟩ := by
  induction l generalizing ts with
  | nil => simp
  | cons sk l ih =>
    rw [List.foldl_cons, ih]
    by_cases hc : sk.Position = PositionCenter ∧ 0 < sk.FaceoffWinningPctg
    · simp only [aggregateSkater, addFaceoffStats, if_pos hc,
        SkaterStats.faceoffTotalContrib, SkaterStats.faceoffWinsContrib,
        List.map_cons, List.sum_cons, TeamGameStats.mk.injEq]
      and_intros <;> first | trivial | ring
    · simp only [aggregateSkater, addFaceoffStats, if_neg hc,
        SkaterStats.faceoffTotalContrib, SkaterStats.faceoffWinsContrib,
        List.map_cons, List.sum_cons, TeamGameStats.mk.injEq]
      and_intros <;> first | trivial | ring

theorem foldl_aggregateGoalie (l : List GoalieStats) (ts : TeamGameStats) :
    l.foldl aggregateGoalie ts = { ts with
      PenaltyMinutes := ts.PenaltyMinutes + (l.map (fun g => g.PIM.getD 0)).sum,
      PowerPlayOpportunities :=
        ts.PowerPlayOpportunities + (l.map GoalieStats.PowerPlayGoalsAgainst).sum } := by
  induction l generalizing ts with
  | nil => simp
  | cons goalie l ih =>
    rw [List.foldl_cons, ih]
    rcases hp : goalie.PIM with - | pim
    · simp only [aggregateGoalie, hp, List.map_cons, List.sum_cons, Option.getD_none,
        TeamGameStats.mk.injEq]
      and_intros <;> first | trivial | ring
    · simp only [aggregateGoalie, hp, List.map_cons, List.sum_cons, Option.getD_some,
        TeamGameStats.mk.injEq]
      and_intros <;> first | trivial | ring

/-- C1: FromTeamPlayerStats sums shots-on-goal, power-play goals, penalty
minutes, hits, blocked shots, giveaways and takeaways over forwards and
defense (goalie PIM, when present, also adds to penalty minutes), sums the
goalies' power-play goals against into power-play opportunities, and
estimates faceoffs from centers with positive winning percentage only:
each contributes its shift count to the total and int(shifts × pctg + 0.5)
to the wins, so a single center with 27 shifts and percentage 0.55 yields
FaceoffTotal 27 and FaceoffWins 15. -/
theorem c1_fromTeamPlayerStats_aggregation (stats : TeamPlayerStats) :
    ((FromTeamPlayerStats stats).ShotsOnGoal =
        ((stats.Forwards ++ stats.Defense).map SkaterStats.SOG).sum ∧
      (FromTeamPlayerStats stats).PowerPlayGoals =
        ((stats.Forwards ++ stats.Defense).map SkaterStats.PowerPlayGoals).sum ∧
      (FromTeamPlayerStats stats).PenaltyMinutes =
        ((stats.Forwards ++ stats.Defense).map SkaterStats.PIM).sum +
          (stats.Goalies.map (fun g => g.PIM.getD 0)).sum ∧
      (FromTeamPlayerStats stats).Hits =
        ((stats.Forwards ++ stats.Defense).map SkaterStats.Hits).sum ∧
      (FromTeamPlayerStats stats).BlockedShots =
        ((stats.Forwards ++ stats.Defense).map SkaterStats.BlockedShots).sum ∧
      (FromTeamPlayerStats stats).Giveaways =
        ((stats.Forwards ++ stats.Defense).map SkaterStats.Giveaways).sum ∧
      (FromTeamPlayerStats stats).Takeaways =
        ((stats.Forwards ++ stats.Defense).map SkaterStats.Takeaways).sum ∧
      (FromTeamPlayerStats stats).PowerPlayOpportunities =
        (stats.Goalies.map GoalieStats.PowerPlayGoalsAgainst).sum ∧
      (FromTeamPlayerStats stats).FaceoffTotal =
        ((stats.Forwards ++ stats.Defense).map SkaterStats.faceoffTotalContrib).sum ∧
      (FromTeamPlayerStats stats).FaceoffWins =
        ((stats.Forwards ++ stats.Defense).map SkaterStats.faceoffWinsContrib).sum) ∧
      ((FromTeamPlayerStats ⟨[⟨"C", 0, 0, 0, 0, 11/20, 0, 27, 0, 0⟩], [], []⟩).FaceoffTotal = 27 ∧
        (FromTeamPlayerStats ⟨[⟨"C", 0, 0, 0, 0, 11/20, 0, 27, 0, 0⟩], [], []⟩).FaceoffWins = 15) := by
  constructor
  · rw [FromTeamPlayerStats, aggregateGoalieStats, aggregateSkaterStats,
      foldl_aggregateSkater, foldl_aggregateGoalie]
    simp [TeamGameStats.zero]
  · have hnum : ((307 : ℚ)/20).num = 307 := by norm_num
    have hden : ((307 : ℚ)/20).den = 20 := by norm_num
    have harith : (27 : ℚ) * (11 / 20) + 2⁻¹ = 307 / 20 := by norm_num
    rw [FromTeamPlayerStats, aggregateGoalieStats, aggregateSkaterStats,
      foldl_aggregateSkater, foldl_aggregateGoalie]
    constructor
    · simp [TeamGameStats.zero, SkaterStats.faceoffTotalContrib, PositionCenter]
    · simp [TeamGameStats.zero, SkaterStats.faceoffWinsContrib, PositionCenter]
      rw [harith, goTruncToInt, hnum, hden]
      decide


/-- C2 counterexample: the claim quantifies over every Season the
unchecked constructor NewSeason accepts; at start year 999 the API string
is the 7-digit "9991000", so SeasonFromInt(ToInt s) and
SeasonParse(ToAPIString s) both fail instead of returning the season. -/
theorem c2_season_roundtrip_counterexample :
    SeasonFromInt ((NewSeason 999).ToInt) = none ∧
      SeasonParse ((NewSeason 999).ToAPIString) = none := by
  decide

/-- C2 (amended): for every Season whose start year lies in [1000, 9998]
(exactly those whose API string is eight digits), SeasonFromInt(ToInt s)
and SeasonParse(ToAPIString s) both succeed and return s. Outside that
range both round trips fail, as the counterexample at start year 999
shows, so the claim is restricted from all start years to this range. -/
theorem c2_season_roundtrip_amended (y : Int) (h1 : 1000 ≤ y) (h2 : y ≤ 9998) :
    SeasonFromInt ((NewSeason y).ToInt) = some (NewSeason y) ∧
      SeasonParse ((NewSeason y).ToAPIString) = some (NewSeason y) := by
  set m : Nat := y.natAbs with hmdef
  set m' : Nat := (y + 1).natAbs with hmdef'
  have hm : (m : Int) = y := Int.natAbs_of_nonneg (by omega)
  have hm' : (m' : Int) = y + 1 := Int.natAbs_of_nonneg (by omega)
  have hmb1 : 1000 ≤ m := by omega
  have hmb2 : m ≤ 9998 := by omega
  have hm'b : m' = m + 1 := by omega
  have hlen4 : (natDigits m).length = 4 := natDigits_length4 m hmb1 (by omega)
  have hlen4' : (natDigits m').length = 4 := natDigits_length4 m' (by omega) (by omega)
  have hapi : (NewSeason y).ToAPIString = String.mk (natDigits m) ++ String.mk (natDigits m') := by
    rw [Season.ToAPIString, Season.EndYear, NewSeason]
    dsimp only
    rw [intRepr, if_neg (by omega), intRepr, if_neg (by omega)]
    rfl
  have hdata : ((NewSeason y).ToAPIString).data = natDigits m ++ natDigits m' := by
    rw [hapi, String.data_append]
  have hall : (natDigits m ++ natDigits m').all isDigitCh = true := by
    rw [List.all_append, natDigits_all_digit m, natDigits_all_digit m']
    rfl
  have hfold_cat : (natDigits m ++ natDigits m').foldl digitStep 0 = m * 10000 + m' := by
    rw [List.foldl_append, natDigits_foldl_zero m, natDigits_foldl m' m, hlen4']
    norm_num
  constructor
  · -- SeasonFromInt (ToInt) round-trip
    have htoint : (NewSeason y).ToInt = ((m * 10000 + m' : Nat) : Int) := by
      rw [Season.ToInt, Atoi,
        ParseInt64_of_all_digits ((NewSeason y).ToAPIString)
          (by rw [hdata]; simp [natDigits_ne_nil m])
          (by rw [hdata]; exact hall)
          (by rw [hdata, hfold_cat]; omega),
        hdata, hfold_cat]
      rfl
    rw [htoint, SeasonFromInt, if_neg (by push_cast; omega)]
    show FromYears ((((m * 10000 + m' : Nat) : Int).toNat / 10000 : Nat) : Int)
        ((((m * 10000 + m' : Nat) : Int).toNat % 10000 : Nat) : Int) = some (NewSeason y)
    have ht : ((m * 10000 + m' : Nat) : Int).toNat = m * 10000 + m' := by omega
    rw [ht]
    have hdiv : (m * 10000 + m') / 10000 = m := by omega
    have hmod : (m * 10000 + m') % 10000 = m' := by omega
    rw [hdiv, hmod, FromYears, if_pos (by omega)]
    rw [NewSeason, NewSeason]
    rw [show ((m : Nat) : Int) = y from hm]
  · -- SeasonParse (ToAPIString) round-trip
    rw [SeasonParse]
    simp only [hdata]
    rw [all_digit_not_contains_dash _ hall]
    simp only [Bool.false_eq_true, if_false]
    rw [if_pos (by rw [List.length_append, hlen4, hlen4'])]
    have htake : (natDigits m ++ natDigits m').take 4 = natDigits m := by
      rw [show (4 : Nat) = (natDigits m).length from hlen4.symm]
      exact List.take_left (natDigits m) (natDigits m')
    have hdrop : (natDigits m ++ natDigits m').drop 4 = natDigits m' := by
      rw [show (4 : Nat) = (natDigits m).length from hlen4.symm]
      exact List.drop_left (natDigits m) (natDigits m')
    rw [htake, hdrop, Atoi_natDigits m (by omega), Atoi_natDigits m' (by omega)]
    show FromYears ((m : Nat) : Int) ((m' : Nat) : Int) = some (NewSeason y)
    rw [FromYears, if_pos (by omega)]
    rw [NewSeason, NewSeason]
    rw [show ((m : Nat) : Int) = y from hm]

/-- Witness for C2: the round trip instantiated at the 2023-2024 season. -/
theorem c2_season_roundtrip_amended_witness :
    SeasonFromInt ((NewSeason 2023).ToInt) = some (NewSeason 2023) ∧
      SeasonParse ((NewSeason 2023).ToAPIString) = some (NewSeason 2023) :=
  c2_season_roundtrip_amended 2023 (by norm_num) (by norm_num)

end NHLSpec
